import Mathlib

/-!
Shallow embedding of the dezero reverse-mode autodiff engine
(dezero/core_simple.py and dezero/functions.py).

Modelling choices:
* numpy ndarrays are a shape plus a flat list of rational elements; the
  operations exercised here (add, mul, square, reshape) are exact on ℚ.
* Variables and Function objects live in an arena (GraphState) and are
  addressed by index, mirroring Python object identity; a weak reference
  to an output Variable is simply its index (no reclamation is modelled).
* Python None is Option.none; Python runtime errors (TypeError,
  AttributeError, NameError, ValueError) are Except.error with the error
  class named in the message.
* The while-loop of Variable.backward is given fuel; the source loop
  terminates because seen_set prevents re-enqueueing, so any fuel at least
  the number of reachable functions plus one suffices.
-/

/-- Model of a numpy ndarray: a shape and the flat list of elements.
Elements are integers: every operation embedded here (add, mul, square,
reshape) maps integral values to integral values exactly, and all claim
scenarios use integral data, so this keeps the model exact and the
computations kernel-evaluable. -/
structure NDArray where
  shape : List Nat
  elems : List ℤ
deriving DecidableEq, Repr

/-- Elementwise x0 + x1. All uses in this development are on arrays of one
common shape, where numpy addition is exactly elementwise. -/
def NDArray.add (a b : NDArray) : NDArray :=
  ⟨a.shape, List.zipWith (fun p q => p + q) a.elems b.elems⟩

/-- Elementwise x0 * x1, same-shape as for NDArray.add. -/
def NDArray.mul (a b : NDArray) : NDArray :=
  ⟨a.shape, List.zipWith (fun p q => p * q) a.elems b.elems⟩

/-- Multiplication by a python scalar, as in 2 * x. -/
def NDArray.scale (c : ℤ) (a : NDArray) : NDArray :=
  ⟨a.shape, a.elems.map (fun q => c * q)⟩

/-- np.ones_like: an array of ones with the same shape. -/
def NDArray.onesLike (a : NDArray) : NDArray :=
  ⟨a.shape, a.elems.map (fun _ => 1)⟩

/-- ndarray.reshape: same elements under a new shape; numpy raises
ValueError when the element count does not match the requested shape. -/
def NDArray.reshapeTo (a : NDArray) (shape : List Nat) : Except String NDArray :=
  if shape.prod = a.elems.length then Except.ok ⟨shape, a.elems⟩
  else Except.error "ValueError: cannot reshape array"

/-- Model of class Variable: the fields set by Variable.__init__ and
mutated by the engine. The creator is an index into the Function arena;
data and grad may be absent (Python None). -/
structure Var where
  name : Option String
  data : Option NDArray
  grad : Option NDArray
  creator : Option Nat
  generation : Nat
deriving DecidableEq, Repr

/-- A Python value passed to Variable(...): None, an ndarray, or another
object (a float or an int, say) that the constructor rejects. -/
inductive PyData where
  | pyNone
  | pyArr (a : NDArray)
  | pyFloat (x : ℚ)
  | pyInt (n : ℤ)
deriving DecidableEq, Repr

/-- Variable.__init__: data that is neither None nor an ndarray raises
TypeError; otherwise name and data are stored and grad, creator and
generation are initialised to None, None and 0. -/
def Variable.init (data : PyData) (name : Option String) : Except String Var :=
  match data with
  | .pyNone => Except.ok ⟨name, none, none, none, 0⟩
  | .pyArr a => Except.ok ⟨name, some a, none, none, 0⟩
  | .pyFloat _ => Except.error "TypeError: unsupported type"
  | .pyInt _ => Except.error "TypeError: unsupported type"

/-- The concrete Function subclasses embedded here, with their
constructor parameters (Reshape stores the target shape). -/
inductive FuncKind where
  | addF
  | mulF
  | squareF
  | reshapeF (shape : List Nat)
deriving DecidableEq, Repr

/-- Model of a Function object as recorded by __call__ when backprop is
enabled: its kind, its generation, the input variable indices (strong
references), the output variable indices (weak references), and the
x_shape that Reshape.forward saves on self. -/
structure Func where
  kind : FuncKind
  generation : Nat
  inputs : List Nat
  outputs : List Nat
  xShape : Option (List Nat)
deriving DecidableEq, Repr

/-- Arena of all Variable and Function objects; indices play the role of
Python object identity. -/
structure GraphState where
  vars : List Var
  funcs : List Func
deriving DecidableEq, Repr

def defaultVar : Var := ⟨none, none, none, none, 0⟩

def defaultFunc : Func := ⟨.addF, 0, [], [], none⟩

def getVar (s : GraphState) (i : Nat) : Var := s.vars.getD i defaultVar

def getFunc (s : GraphState) (i : Nat) : Func := s.funcs.getD i defaultFunc

def setVar (s : GraphState) (i : Nat) (v : Var) : GraphState :=
  ⟨s.vars.set i v, s.funcs⟩

def emptyState : GraphState := ⟨[], []⟩

/-- Allocate a fresh leaf Variable holding an ndarray, as in
Variable(np.array(c)); returns its index and the grown arena. -/
def mkVariable (s : GraphState) (a : NDArray) : Nat × GraphState :=
  (s.vars.length, ⟨s.vars ++ [⟨none, some a, none, none, 0⟩], s.funcs⟩)

/-- Variable.set_creator: store the creator and set the generation to the
creator generation plus one. -/
def set_creator (s : GraphState) (vid : Nat) (fid : Nat) : GraphState :=
  let v := getVar s vid
  setVar s vid ⟨v.name, v.data, v.grad, some fid, (getFunc s fid).generation + 1⟩

/-- The forward methods of the embedded operations applied to the input
data values; besides the outputs it returns, for Reshape, the x_shape the
method records on self. Feeding None where numpy expects an array raises. -/
def forward (k : FuncKind) (xs : List (Option NDArray)) :
    Except String (List NDArray × Option (List Nat)) :=
  match k, xs with
  | .addF, [some x0, some x1] => Except.ok ([NDArray.add x0 x1], none)
  | .mulF, [some x0, some x1] => Except.ok ([NDArray.mul x0 x1], none)
  | .squareF, [some x] =>
      Except.ok ([⟨x.shape, x.elems.map (fun q => q * q)⟩], none)
  | .reshapeF shape, [some x] =>
      match x.reshapeTo shape with
      | .ok y => .ok ([y], some x.shape)
      | .error e => .error e
  | _, _ => Except.error "TypeError: bad operand"

/-- Function.__call__, the dispatch: the arguments are already Variables
(as_variable is the identity on a Variable); it extracts their data, runs
forward, and wraps each result as a fresh Variable (as_array is the
identity here since the modelled forwards return arrays). When
Config.enable_backprop is set it records the generation as the maximum of
the input generations, calls set_creator on every output, stores inputs
and weak output references, and returns the outputs; when the flag is
clear the method falls off the end of the if-block and returns Python
None, modelled as a first component of none. -/
def Function.call (enable_backprop : Bool) (k : FuncKind) (argIds : List Nat)
    (s : GraphState) : Except String (Option (List Nat) × GraphState) :=
  let xs := argIds.map (fun i => (getVar s i).data)
  match forward k xs with
  | .error e => .error e
  | .ok (ys, xShape) =>
    let outIds := (List.range ys.length).map (fun j => j + s.vars.length)
    let s1 : GraphState :=
      ⟨s.vars ++ ys.map (fun y => ⟨none, some y, none, none, 0⟩), s.funcs⟩
    if enable_backprop then
      let gen := (argIds.map (fun i => (getVar s i).generation)).foldl max 0
      let fid := s1.funcs.length
      let s2 : GraphState := ⟨s1.vars, s1.funcs ++ [⟨k, gen, argIds, outIds, xShape⟩]⟩
      let s3 := outIds.foldl (fun st oid => set_creator st oid fid) s2
      Except.ok (some outIds, s3)
    else
      Except.ok (none, s1)

/-- The backward methods of the graph operations (Add, Mul, Square,
Reshape), reading the stored inputs as self.inputs[i].data. A None among
the incoming gradients raises inside the numeric code. Reshape.backward
calls reshape(gy, self.x_shape) on the raw gradient array, which computes
the array reshape to the saved input shape. -/
def backwardRule (s : GraphState) (f : Func) (gys : List (Option NDArray)) :
    Except String (List NDArray) :=
  match f.kind, gys with
  | .addF, [some gy] => .ok [gy, gy]
  | .mulF, [some gy] =>
    match f.inputs.map (fun i => (getVar s i).data) with
    | [some x0, some x1] => .ok [NDArray.mul x1 gy, NDArray.mul x0 gy]
    | _ => .error "TypeError: bad operand"
  | .squareF, [some gy] =>
    match f.inputs.map (fun i => (getVar s i).data) with
    | [some x] => .ok [NDArray.mul (NDArray.scale 2 x) gy]
    | _ => .error "TypeError: bad operand"
  | .reshapeF _, [some gy] =>
    match gy.reshapeTo (f.xShape.getD []) with
    | .ok g => .ok [g]
    | .error e => .error e
  | _, _ => .error "TypeError: bad operand"

/-- Priority key of a work-list entry. heapq orders entries by
Function.__lt__, which returns generation-greater, so heappop removes an
entry of maximal generation. A None entry (pushed for a leaf creator) is
never compared in the source, since it can only ever be the sole element
of the heap; its key here is arbitrary. -/
def funcKey (s : GraphState) : Option Nat → Nat
  | none => 0
  | some fid => (getFunc s fid).generation

/-- heappop under Function.__lt__: removes the first entry of maximal
generation (heapq breaks ties by heap structure; first-pushed is the
deterministic rendering used here), returning it with the remaining
entries. -/
def extractMax (s : GraphState) : List (Option Nat) → Option (Option Nat × List (Option Nat))
  | [] => none
  | x :: xs =>
    match extractMax s xs with
    | none => some (x, [])
    | some (y, rest) =>
      if funcKey s x < funcKey s y then some (y, x :: rest) else some (x, xs)

/-- add_func: push onto the heap unless the same object is already in
seen_set. -/
def addFunc (funcs seen : List (Option Nat)) (f : Option Nat) :
    List (Option Nat) × List (Option Nat) :=
  if f ∈ seen then (funcs, seen) else (funcs ++ [f], f :: seen)

/-- Gradient accumulation into an input:
x.grad = gx if x.grad is None else gx + x.grad. -/
def accumGrad (s : GraphState) (vid : Nat) (gx : NDArray) : GraphState :=
  let v := getVar s vid
  let g := match v.grad with
    | none => gx
    | some g0 => NDArray.add gx g0
  setVar s vid ⟨v.name, v.data, some g, v.creator, v.generation⟩

/-- y().grad = None for one retired output. -/
def setGradNone (s : GraphState) (vid : Nat) : GraphState :=
  let v := getVar s vid
  setVar s vid ⟨v.name, v.data, none, v.creator, v.generation⟩

/-- The while-loop of Variable.backward. Each iteration pops the entry of
maximal generation; popping a None entry (the creator of a leaf)
dereferences None.outputs and raises AttributeError. For a popped
function it gathers the output grads, runs its backward, accumulates each
returned gradient into the matching input and enqueues that input's
creator if present and unseen, then (unless retain_grad) clears the grads
of the popped function's outputs. The returned list records the order in
which function ids were processed, observed for the traversal-order
claims. -/
def backwardLoop (retainGrad : Bool) :
    Nat → GraphState → List (Option Nat) → List (Option Nat) → List Nat →
    Except String (GraphState × List Nat)
  | 0, _, _, _, _ => .error "fuel exhausted"
  | fuel + 1, s, funcs, seen, trace =>
    match extractMax s funcs with
    | none => .ok (s, trace.reverse)
    | some (none, _) =>
        .error "AttributeError: NoneType object has no attribute outputs"
    | some (some fid, rest) =>
      let f := getFunc s fid
      let gys := f.outputs.map (fun oid => (getVar s oid).grad)
      match backwardRule s f gys with
      | .error e => .error e
      | .ok gxs =>
        let step := fun (acc : GraphState × List (Option Nat) × List (Option Nat))
            (p : Nat × NDArray) =>
          let s1 := accumGrad acc.1 p.1 p.2
          match (getVar s1 p.1).creator with
          | some c =>
            let fs := addFunc acc.2.1 acc.2.2 (some c)
            (s1, fs.1, fs.2)
          | none => (s1, acc.2.1, acc.2.2)
        let res := (f.inputs.zip gxs).foldl step (s, rest, seen)
        let s2 := if retainGrad then res.1 else f.outputs.foldl setGradNone res.1
        backwardLoop retainGrad fuel s2 res.2.1 res.2.2 (fid :: trace)

/-- The seeding prologue of Variable.backward: if self.grad is None it
becomes np.ones_like(self.data). np.ones_like(None) yields a
zero-dimensional object array holding 1, modelled as the empty-shape
array of one. -/
def seedGrad (s : GraphState) (vid : Nat) : GraphState :=
  let v := getVar s vid
  match v.grad with
  | none =>
    let ones := match v.data with
      | some d => NDArray.onesLike d
      | none => ⟨[], [1]⟩
    setVar s vid ⟨v.name, v.data, some ones, v.creator, v.generation⟩
  | some _ => s

/-- Variable.backward: seed self.grad if absent, seed the work list with
add_func(self.creator) — which pushes None when self is a leaf — and run
the loop. -/
def Variable.backward (retainGrad : Bool) (fuel : Nat) (vid : Nat)
    (s : GraphState) : Except String (GraphState × List Nat) :=
  let s0 := seedGrad s vid
  let fs := addFunc [] [] ((getVar s0 vid).creator)
  backwardLoop retainGrad fuel s0 fs.1 fs.2 []

/-- Exp.backward as written in the source: np.exp(self.inputs.data) * gy.
The attribute self.inputs is the Python list of input Variables stored by
__call__, and a list has no attribute data, so the method raises
AttributeError before any arithmetic, whatever the stored inputs and the
incoming gradient are. -/
def Exp.backward (inputs : List Var) (gy : NDArray) : Except String NDArray :=
  Except.error "AttributeError: list object has no attribute data"

/-- Tanh.backward as written in the source: it reads
y = self.outputs[0]() and then returns g * (1 - y*y), where the name g is
bound nowhere (the parameter is gy), so the method raises NameError
whenever invoked. -/
def Tanh.backward (outputs : List Var) (gy : NDArray) : Except String NDArray :=
  Except.error "NameError: name g is not defined"

/-- Config holds the single process-wide flag enable_backprop. -/
structure Config where
  enable_backprop : Bool
deriving DecidableEq, Repr

/-- using_config for the attribute enable_backprop (the only Config
attribute): read the old value, set the new one, run the body, and in the
finally block write the old value back, whether the body returned
normally or raised. The body may itself read and write the flag and may
fail; its state survives into the restoration step. -/
def using_config {α : Type} (value : Bool)
    (body : Config → Except String α × Config) (cfg : Config) :
    Except String α × Config :=
  let old_value := cfg.enable_backprop
  let r := body ⟨value⟩
  (r.1, { r.2 with enable_backprop := old_value })

/-- no_grad() = using_config(enable_backprop, False). -/
def no_grad {α : Type} (body : Config → Except String α × Config)
    (cfg : Config) : Except String α × Config :=
  using_config false body cfg

/-- Variable.shape: delegates to self.data.shape; raises when data is
None. -/
def Variable.shape (v : Var) : Except String (List Nat) :=
  match v.data with
  | some a => .ok a.shape
  | none => .error "AttributeError: NoneType object has no attribute shape"

/-- functions.reshape: when x.shape == shape it returns as_variable(x),
which is x itself since x is already a Variable; otherwise it applies
Reshape(shape) through the dispatch. -/
def reshape (enable_backprop : Bool) (xid : Nat) (shape : List Nat)
    (s : GraphState) : Except String (Option (List Nat) × GraphState) :=
  match Variable.shape (getVar s xid) with
  | .error e => .error e
  | .ok xsh =>
    if xsh = shape then .ok (some [xid], s)
    else Function.call enable_backprop (.reshapeF shape) [xid] s

/-! Helper lemmas about the arena. -/

theorem funcs_setVar (s : GraphState) (i : Nat) (v : Var) :
    (setVar s i v).funcs = s.funcs := rfl

theorem length_setVar (s : GraphState) (i : Nat) (v : Var) :
    (setVar s i v).vars.length = s.vars.length := by
  simp [setVar]

theorem getVar_setVar_self (s : GraphState) (i : Nat) (v : Var)
    (h : i < s.vars.length) : getVar (setVar s i v) i = v := by
  unfold getVar setVar
  rw [List.getD_eq_getElem _ _ (by simpa using h)]
  simp

theorem getVar_setVar_ne (s : GraphState) (i j : Nat) (v : Var)
    (h : i ≠ j) : getVar (setVar s i v) j = getVar s j := by
  unfold getVar setVar
  simp [List.getD_eq_getD_get?, List.get?_eq_getElem?, List.getElem?_set_ne h]

theorem funcs_set_creator (s : GraphState) (vid fid : Nat) :
    (set_creator s vid fid).funcs = s.funcs := rfl

theorem length_set_creator (s : GraphState) (vid fid : Nat) :
    (set_creator s vid fid).vars.length = s.vars.length := by
  simp [set_creator, setVar]

theorem getFunc_set_creator (s : GraphState) (vid fid j : Nat) :
    getFunc (set_creator s vid fid) j = getFunc s j := rfl

theorem getVar_set_creator_self (s : GraphState) (vid fid : Nat)
    (h : vid < s.vars.length) :
    getVar (set_creator s vid fid) vid =
      ⟨(getVar s vid).name, (getVar s vid).data, (getVar s vid).grad,
       some fid, (getFunc s fid).generation + 1⟩ := by
  unfold set_creator
  exact getVar_setVar_self _ _ _ h

theorem getVar_set_creator_ne (s : GraphState) (vid fid j : Nat)
    (h : vid ≠ j) : getVar (set_creator s vid fid) j = getVar s j := by
  unfold set_creator
  exact getVar_setVar_ne _ _ _ _ h

theorem le_foldl_max (l : List Nat) (a : Nat) : a ≤ l.foldl max a := by
  induction l generalizing a with
  | nil => exact Nat.le_refl a
  | cons x xs ih => exact Nat.le_trans (Nat.le_max_left a x) (ih (max a x))

theorem foldl_max_le_of_mem (l : List Nat) (a x : Nat) (h : x ∈ l) :
    x ≤ l.foldl max a := by
  induction l generalizing a with
  | nil => cases h
  | cons y ys ih =>
    rcases List.mem_cons.mp h with h1 | h1
    · subst h1
      exact Nat.le_trans (Nat.le_max_right a x) (le_foldl_max ys (max a x))
    · exact ih (max a y) h1

theorem foldl_max_eq_or_mem (l : List Nat) (a : Nat) :
    l.foldl max a = a ∨ l.foldl max a ∈ l := by
  induction l generalizing a with
  | nil => exact Or.inl rfl
  | cons y ys ih =>
    rcases ih (max a y) with h | h
    · rcases Nat.le_total a y with hy | hy
      · right
        rw [List.foldl_cons, h, Nat.max_eq_right hy]
        exact List.mem_cons_self y ys
      · left
        rw [List.foldl_cons, h, Nat.max_eq_left hy]
    · right
      exact List.mem_cons_of_mem y h

theorem funcs_foldl_set_creator (fid : Nat) (l : List Nat) (s : GraphState) :
    (l.foldl (fun st oid => set_creator st oid fid) s).funcs = s.funcs := by
  induction l generalizing s with
  | nil => rfl
  | cons o os ih => rw [List.foldl_cons, ih, funcs_set_creator]

theorem length_foldl_set_creator (fid : Nat) (l : List Nat) (s : GraphState) :
    (l.foldl (fun st oid => set_creator st oid fid) s).vars.length
      = s.vars.length := by
  induction l generalizing s with
  | nil => rfl
  | cons o os ih => rw [List.foldl_cons, ih, length_set_creator]

theorem getVar_foldl_set_creator_not_mem (fid : Nat) (l : List Nat)
    (s : GraphState) (j : Nat) (hj : j ∉ l) :
    getVar (l.foldl (fun st oid => set_creator st oid fid) s) j = getVar s j := by
  induction l generalizing s with
  | nil => rfl
  | cons o os ih =>
    rw [List.foldl_cons, ih _ (fun h => hj (List.mem_cons_of_mem o h)),
      getVar_set_creator_ne s o fid j (fun h => hj (h ▸ List.mem_cons_self o os))]

theorem getVar_foldl_set_creator_mem (fid : Nat) (l : List Nat)
    (s : GraphState) (oid : Nat) (hmem : oid ∈ l) (hnd : l.Nodup)
    (hlt : ∀ j ∈ l, j < s.vars.length) :
    getVar (l.foldl (fun st oid => set_creator st oid fid) s) oid =
      ⟨(getVar s oid).name, (getVar s oid).data, (getVar s oid).grad,
       some fid, (getFunc s fid).generation + 1⟩ := by
  induction l generalizing s with
  | nil => cases hmem
  | cons o os ih =>
    rw [List.foldl_cons]
    rcases List.mem_cons.mp hmem with h1 | h1
    · subst h1
      have hnot : oid ∉ os := (List.nodup_cons.mp hnd).1
      rw [getVar_foldl_set_creator_not_mem fid os _ oid hnot,
        getVar_set_creator_self s oid fid (hlt oid (List.mem_cons_self oid os))]
    · have hne : o ≠ oid := by
        intro h
        exact (List.nodup_cons.mp hnd).1 (h ▸ h1)
      rw [ih (set_creator s o fid) h1 (List.nodup_cons.mp hnd).2
          (fun j hj => by rw [length_set_creator]; exact hlt j (List.mem_cons_of_mem o hj)),
        getVar_set_creator_ne s o fid oid hne, getFunc_set_creator]

theorem extractMax_cons_ne_none (s : GraphState) (x : Option Nat)
    (xs : List (Option Nat)) : extractMax s (x :: xs) ≠ none := by
  unfold extractMax
  cases extractMax s xs with
  | none => simp
  | some p =>
    obtain ⟨y, r⟩ := p
    dsimp only
    split <;> simp

theorem extractMax_key_le (s : GraphState) (l : List (Option Nat))
    (y : Option Nat) (rest : List (Option Nat))
    (h : extractMax s l = some (y, rest)) :
    ∀ z ∈ l, funcKey s z ≤ funcKey s y := by
  induction l generalizing y rest with
  | nil => simp [extractMax] at h
  | cons x xs ih =>
    intro z hz
    unfold extractMax at h
    cases hxs : extractMax s xs with
    | none =>
      rw [hxs] at h
      dsimp only at h
      simp only [Option.some.injEq, Prod.mk.injEq] at h
      obtain ⟨hy, hr⟩ := h
      have hxsnil : xs = [] := by
        cases xs with
        | nil => rfl
        | cons a as => exact absurd hxs (extractMax_cons_ne_none s a as)
      subst hxsnil
      rw [List.mem_singleton.mp hz, ← hy]
    | some p =>
      obtain ⟨y2, rest2⟩ := p
      rw [hxs] at h
      dsimp only at h
      by_cases hk : funcKey s x < funcKey s y2
      · rw [if_pos hk] at h
        simp only [Option.some.injEq, Prod.mk.injEq] at h
        obtain ⟨hy, hr⟩ := h
        subst hy
        rcases List.mem_cons.mp hz with h1 | h1
        · exact h1 ▸ Nat.le_of_lt hk
        · exact ih y2 rest2 hxs z h1
      · rw [if_neg hk] at h
        simp only [Option.some.injEq, Prod.mk.injEq] at h
        obtain ⟨hy, hr⟩ := h
        subst hy
        rcases List.mem_cons.mp hz with h1 | h1
        · exact h1 ▸ Nat.le_refl _
        · exact Nat.le_trans (ih y2 rest2 hxs z h1) (Nat.le_of_not_lt hk)

theorem call_true_spec (k : FuncKind) (argIds : List Nat) (s : GraphState)
    (outIds : List Nat) (s' : GraphState)
    (h : Function.call true k argIds s = Except.ok (some outIds, s')) :
    s'.funcs.length = s.funcs.length + 1
    ∧ (getFunc s' s.funcs.length).kind = k
    ∧ (getFunc s' s.funcs.length).generation
        = (argIds.map (fun i => (getVar s i).generation)).foldl max 0
    ∧ (∃ n, outIds = (List.range n).map (fun j => j + s.vars.length)
        ∧ s'.vars.length = s.vars.length + n)
    ∧ ∀ oid ∈ outIds, (getVar s' oid).creator = some s.funcs.length
        ∧ (getVar s' oid).generation
            = (getFunc s' s.funcs.length).generation + 1 := by
  unfold Function.call at h
  simp only [] at h
  cases hf : forward k (argIds.map fun i => (getVar s i).data) with
  | error e => rw [hf] at h; exact absurd h (by simp)
  | ok p =>
    obtain ⟨ys, xShape⟩ := p
    rw [hf] at h
    simp only [Except.ok.injEq, Prod.mk.injEq, Option.some.injEq, if_true] at h
    obtain ⟨houts, hs⟩ := h
    subst hs
    subst houts
    have hfuncs : (((List.range ys.length).map (fun j => j + s.vars.length)).foldl
        (fun st oid => set_creator st oid (s.funcs.length)) 
        (⟨s.vars ++ ys.map (fun y => ⟨none, some y, none, none, 0⟩),
          s.funcs ++ [⟨k, (argIds.map (fun i => (getVar s i).generation)).foldl max 0,
            argIds, (List.range ys.length).map (fun j => j + s.vars.length), xShape⟩]⟩
          : GraphState)).funcs
      = s.funcs ++ [⟨k, (argIds.map (fun i => (getVar s i).generation)).foldl max 0,
          argIds, (List.range ys.length).map (fun j => j + s.vars.length), xShape⟩] :=
      funcs_foldl_set_creator _ _ _
    set F : Func := ⟨k, (argIds.map (fun i => (getVar s i).generation)).foldl max 0,
      argIds, (List.range ys.length).map (fun j => j + s.vars.length), xShape⟩ with hF
    set base : GraphState :=
      ⟨s.vars ++ ys.map (fun y => ⟨none, some y, none, none, 0⟩), s.funcs ++ [F]⟩ with hbase
    set s3 : GraphState := ((List.range ys.length).map (fun j => j + s.vars.length)).foldl
      (fun st oid => set_creator st oid s.funcs.length) base with hs3
    have hgfb : getFunc base s.funcs.length = F := by
      unfold getFunc
      rw [hbase]
      exact (List.getD_append_right _ _ _ _ (Nat.le_refl _)).trans (by simp)
    have hgf : getFunc s3 s.funcs.length = F := by
      unfold getFunc
      rw [hfuncs]
      exact (List.getD_append_right _ _ _ _ (Nat.le_refl _)).trans (by simp)
    have hlen : s3.vars.length = s.vars.length + ys.length := by
      rw [hs3, length_foldl_set_creator, hbase]
      simp
    refine ⟨?_, ?_, ?_, ?_, ?_⟩
    · rw [hfuncs]
      simp
    · rw [hgf]
    · rw [hgf]
    · exact ⟨ys.length, rfl, hlen⟩
    · intro oid hoid
      have hnd : (((List.range ys.length).map (fun j => j + s.vars.length))).Nodup :=
        (List.nodup_range ys.length).map (fun a b hab => Nat.add_right_cancel hab)
      have hbnd : ∀ j ∈ (List.range ys.length).map (fun j => j + s.vars.length),
          j < base.vars.length := by
        intro j hj
        obtain ⟨a, ha, rfl⟩ := List.mem_map.mp hj
        rw [hbase]
        simp only [GraphState.vars, List.length_append, List.length_map]
        have := List.mem_range.mp ha
        omega
      have := getVar_foldl_set_creator_mem s.funcs.length
        ((List.range ys.length).map (fun j => j + s.vars.length)) base oid hoid hnd hbnd
      rw [← hs3] at this
      rw [this, hgf, hgfb]
      exact ⟨rfl, rfl⟩

/-! Concrete scenarios used by the claims. -/

/-- A one-variable arena holding x = Variable(np.array(2.0)), modelled as
the zero-dimensional tensor 2.0. -/
def oneVarState : GraphState := (mkVariable emptyState ⟨[], [2]⟩).2

/-- The C2 scenario: x = Variable(3.0); y = x*x + x*x (function ids 0 and
1 are the two Muls, 2 is the Add; variable ids 1, 2 their outputs and 3
the sum); then y.backward(). The run returns the final arena and the
order in which function ids were processed. -/
def c2_run : Except String (GraphState × List Nat) := do
  let s0 := (mkVariable emptyState ⟨[], [3]⟩).2
  let p1 ← Function.call true .mulF [0, 0] s0
  let p2 ← Function.call true .mulF [0, 0] p1.2
  let p3 ← Function.call true .addF [1, 2] p2.2
  Variable.backward false 10 3 p3.2

/-- The C3 graph: leaf = Variable(2.0); a = square(leaf) (function 0,
variable 1); b = square(a) (function 1, variable 2). -/
def c3_graph : Except String GraphState := do
  let s0 := (mkVariable emptyState ⟨[], [2]⟩).2
  let p1 ← Function.call true .squareF [0] s0
  let p2 ← Function.call true .squareF [1] p1.2
  pure p2.2

/-- b.backward() on the C3 graph. -/
def c3_run : Except String (GraphState × List Nat) :=
  c3_graph.bind (fun s => Variable.backward false 10 2 s)

/-- C1: with graph-building disabled the dispatch still computes the
forward value and wraps it as a fresh Variable with no creator and
generation 0, but the return statement of __call__ sits inside the
enable_backprop block, so the call returns Python None instead of that
Variable: applying Square to Variable(np.array(2.0)) under no_grad
evaluates to None (first component none) while the unreturned arena
Variable holds data 4.0 with creator None and generation 0. -/
theorem claim1_no_grad_call_returns_none :
    Function.call false .squareF [0] oneVarState
      = Except.ok (none,
          ⟨oneVarState.vars ++ [⟨none, some ⟨[], [4]⟩, none, none, 0⟩],
           oneVarState.funcs⟩) := by
  rfl

/-- C2: after y.backward() on y = x*x + x*x with x = Variable(3.0), the
leaf gradient is 12.0 — the two multiplication paths both contribute —
and the processed trace [2, 0, 1] lists each of the three operations
exactly once (the Add first, then each Mul). -/
theorem claim2_multipath_grad_accumulation :
    c2_run.map (fun r => ((getVar r.1 0).grad, r.2))
      = Except.ok (some ⟨[], [12]⟩, [2, 0, 1]) := by
  rfl

/-- C3: the scheduler pop (heappop under Function.__lt__) removes an
entry whose generation is at least that of every pending entry, so a
pending operation with strictly greater generation is always dequeued
before one with lesser or equal generation; concretely, for a = f(leaf)
and b = g(a), the creator of b (function 1) has generation 1, strictly
above generation 0 of the creator of a (function 0), and backward on b
processes function 1 strictly before function 0, each exactly once. -/
theorem claim3_backward_order :
    (∀ (s : GraphState) (l : List (Option Nat)) (y : Option Nat)
        (rest : List (Option Nat)), extractMax s l = some (y, rest) →
        ∀ z ∈ l, funcKey s z ≤ funcKey s y)
    ∧ c3_graph.map (fun s => ((getVar s 2).creator, (getVar s 1).creator,
        (getFunc s 1).generation, (getFunc s 0).generation))
        = Except.ok (some 1, some 0, 1, 0)
    ∧ c3_run.map (fun r => r.2) = Except.ok [1, 0] := by
  exact ⟨extractMax_key_le, rfl, rfl⟩

/-- Witness for C3: the pop property applied to the singleton work list. -/
theorem claim3_witness : funcKey emptyState none ≤ funcKey emptyState none :=
  claim3_backward_order.1 emptyState [none] none [] rfl none
    (List.mem_singleton.mpr rfl)

/-- C6 (code bug): Exp.backward evaluates np.exp(self.inputs.data) * gy,
but self.inputs is the stored Python list of input Variables, which has
no attribute data, so the method raises AttributeError instead of
returning exp(x) * gy; shown here on a stored input with value 2.0 and
incoming gradient 1.0. -/
theorem claim6_exp_backward_raises :
    Exp.backward [⟨none, some ⟨[], [2]⟩, none, none, 0⟩] ⟨[], [1]⟩
      = Except.error "AttributeError: list object has no attribute data" := rfl

/-- C7 (code bug): Tanh.backward returns g * (1 - y*y) where the name g
is unbound (the parameter is gy), so the method raises NameError instead
of returning gy * (1 - y*y); shown here on a stored output and incoming
gradient 1.0. -/
theorem claim7_tanh_backward_raises :
    Tanh.backward [⟨none, some ⟨[], [0]⟩, none, none, 0⟩] ⟨[], [1]⟩
      = Except.error "NameError: name g is not defined" := rfl

/-- C8: using_config sets the flag to the override value on entry, and on
every exit path — the body returning a value or the body raising — the
finally clause restores the flag to its pre-scope value; the mechanism
itself adds no failure: the overall result is exactly the body result. -/
theorem claim8_using_config_restores (α : Type) (value : Bool)
    (body : Config → Except String α × Config) (cfg : Config) :
    ((using_config value body cfg).2).enable_backprop = cfg.enable_backprop
    ∧ (using_config value body cfg).1 = (body ⟨value⟩).1 :=
  ⟨rfl, rfl⟩

/-- C9: constructing a Variable from data that is neither None nor an
ndarray (a Python float or int, say) raises TypeError; construction from
None or from an ndarray succeeds and initialises grad and creator to
None and generation to 0. -/
theorem claim9_init_type_contract :
    (∀ (x : ℚ) (name : Option String),
        Variable.init (.pyFloat x) name = Except.error "TypeError: unsupported type")
    ∧ (∀ (n : ℤ) (name : Option String),
        Variable.init (.pyInt n) name = Except.error "TypeError: unsupported type")
    ∧ (∀ name : Option String,
        Variable.init .pyNone name = Except.ok ⟨name, none, none, none, 0⟩)
    ∧ (∀ (a : NDArray) (name : Option String),
        Variable.init (.pyArr a) name = Except.ok ⟨name, some a, none, none, 0⟩) :=
  ⟨fun _ _ => rfl, fun _ _ => rfl, fun _ => rfl, fun _ _ => rfl⟩

/-- C4: generation bookkeeping. A freshly constructed Variable has no
creator and generation 0; set_creator stores the creator f and sets
generation to f.generation + 1; and a dispatch with backprop enabled
records on the new function node the maximum generation among its input
Variables at that moment (no input generation exceeds it and some input
attains it) while stamping every output with that creator and with
generation one larger. -/
theorem claim4_generation_invariant :
    (∀ data name v, Variable.init data name = Except.ok v →
        v.creator = none ∧ v.generation = 0)
    ∧ (∀ (s : GraphState) (vid fid : Nat), vid < s.vars.length →
        (getVar (set_creator s vid fid) vid).creator = some fid
        ∧ (getVar (set_creator s vid fid) vid).generation
            = (getFunc s fid).generation + 1)
    ∧ (∀ (k : FuncKind) (argIds : List Nat) (s : GraphState)
        (outIds : List Nat) (s' : GraphState), argIds ≠ [] →
        Function.call true k argIds s = Except.ok (some outIds, s') →
        ((∀ i ∈ argIds,
            (getVar s i).generation ≤ (getFunc s' s.funcs.length).generation)
        ∧ (∃ i ∈ argIds,
            (getFunc s' s.funcs.length).generation = (getVar s i).generation)
        ∧ ∀ oid ∈ outIds, (getVar s' oid).creator = some s.funcs.length
            ∧ (getVar s' oid).generation
                = (getFunc s' s.funcs.length).generation + 1)) := by
  refine ⟨?_, ?_, ?_⟩
  · intro data name v h
    cases data with
    | pyNone =>
      simp only [Variable.init, Except.ok.injEq] at h
      rw [← h]
      exact ⟨rfl, rfl⟩
    | pyArr a =>
      simp only [Variable.init, Except.ok.injEq] at h
      rw [← h]
      exact ⟨rfl, rfl⟩
    | pyFloat x => simp [Variable.init] at h
    | pyInt n => simp [Variable.init] at h
  · intro s vid fid h
    rw [getVar_set_creator_self s vid fid h]
    exact ⟨rfl, rfl⟩
  · intro k argIds s outIds s' hne hcall
    obtain ⟨hl, hk, hgen, ⟨n, houts, hlen⟩, houtprop⟩ :=
      call_true_spec k argIds s outIds s' hcall
    refine ⟨?_, ?_, houtprop⟩
    · intro i hi
      rw [hgen]
      exact foldl_max_le_of_mem _ 0 _ (List.mem_map_of_mem _ hi)
    · rcases foldl_max_eq_or_mem
          (argIds.map fun i => (getVar s i).generation) 0 with h0 | hmem
      · obtain ⟨i, hi⟩ := List.exists_mem_of_ne_nil argIds hne
        refine ⟨i, hi, ?_⟩
        have hle := foldl_max_le_of_mem
          (argIds.map fun i => (getVar s i).generation) 0
          _ (List.mem_map_of_mem _ hi)
        rw [h0] at hle
        rw [hgen, h0]
        omega
      · obtain ⟨i, hi, hv⟩ := List.mem_map.mp hmem
        exact ⟨i, hi, by rw [hgen, hv]⟩

/-- The arena after applying Square to oneVarState with backprop on:
function 0 with generation 0, output variable 1 with creator 0 and
generation 1. -/
def sqAppliedState : GraphState :=
  ⟨[⟨none, some ⟨[], [2]⟩, none, none, 0⟩,
    ⟨none, some ⟨[], [4]⟩, none, some 0, 1⟩],
   [⟨.squareF, 0, [0], [1], none⟩]⟩

/-- Witness for C4: the three parts applied to concrete inputs. -/
theorem claim4_witness :
    ((⟨none, none, none, none, 0⟩ : Var).creator = none
      ∧ (⟨none, none, none, none, 0⟩ : Var).generation = 0)
    ∧ ((getVar (set_creator sqAppliedState 0 0) 0).creator = some 0
      ∧ (getVar (set_creator sqAppliedState 0 0) 0).generation
          = (getFunc sqAppliedState 0).generation + 1)
    ∧ ((getVar sqAppliedState 1).creator = some 0
      ∧ (getVar sqAppliedState 1).generation
          = (getFunc sqAppliedState 0).generation + 1) :=
  ⟨claim4_generation_invariant.1 .pyNone none _ rfl,
   claim4_generation_invariant.2.1 sqAppliedState 0 0 (by decide),
   (claim4_generation_invariant.2.2 .squareF [0] oneVarState [1] sqAppliedState
      (by decide) rfl).2.2 1 (by decide)⟩

/-- C5 counterexample: calling backward() on a leaf Variable is not a
normal no-op — add_func pushes the absent creator (None) onto the work
list, the loop pops it and dereferences None.outputs, raising
AttributeError. -/
theorem claim5_counterexample :
    Variable.backward false 10 0 oneVarState
      = Except.error "AttributeError: NoneType object has no attribute outputs" := by
  rfl

/-- C5 amended: backward() on a leaf Variable (creator absent, gradient
absent, data present) first seeds the leaf gradient with ones, then
raises AttributeError when the None creator — the only work-list entry —
is popped and dereferenced; no Operation is visited. -/
theorem claim5_leaf_backward_raises (s : GraphState) (vid : Nat) (rg : Bool)
    (fuel : Nat) (d : NDArray) (hv : vid < s.vars.length)
    (hc : (getVar s vid).creator = none) (hg : (getVar s vid).grad = none)
    (hd : (getVar s vid).data = some d) (hf : 0 < fuel) :
    (getVar (seedGrad s vid) vid).grad = some (NDArray.onesLike d)
    ∧ Variable.backward rg fuel vid s
        = Except.error "AttributeError: NoneType object has no attribute outputs" := by
  rcases hvar : getVar s vid with ⟨nm, dt, gr, cr, gen⟩
  rw [hvar] at hc hg hd
  simp only at hc hg hd
  subst hc
  subst hg
  subst hd
  have hseed : seedGrad s vid
      = setVar s vid ⟨nm, some d, some (NDArray.onesLike d), none, gen⟩ := by
    unfold seedGrad
    rw [hvar]
  have hget : getVar (seedGrad s vid) vid
      = ⟨nm, some d, some (NDArray.onesLike d), none, gen⟩ := by
    rw [hseed, getVar_setVar_self _ _ _ hv]
  refine ⟨by rw [hget], ?_⟩
  unfold Variable.backward
  simp only [hget, addFunc]
  obtain ⟨m, rfl⟩ : ∃ m, fuel = m + 1 := ⟨fuel - 1, by omega⟩
  simp [backwardLoop, extractMax]

/-- Witness for C5: the amended statement at the concrete one-leaf arena. -/
theorem claim5_witness :
    (getVar (seedGrad oneVarState 0) 0).grad
        = some (NDArray.onesLike ⟨[], [2]⟩)
    ∧ Variable.backward false 10 0 oneVarState
        = Except.error "AttributeError: NoneType object has no attribute outputs" :=
  claim5_leaf_backward_raises oneVarState 0 false 10 ⟨[], [2]⟩
    (by decide) rfl rfl rfl (by decide)

/-- C10: when the Variable's shape already equals the requested shape,
reshape returns as_variable(x) — the very same Variable, with the arena
(hence creator, generation and gradient of every Variable) untouched and
no Reshape node created; when the shapes differ (backprop enabled), the
dispatch inserts exactly one new function node, of kind Reshape with the
requested shape, whose single output is a fresh Variable. -/
theorem claim10_reshape_identity :
    (∀ (cfg : Bool) (s : GraphState) (xid : Nat) (a : NDArray) (shape : List Nat),
        (getVar s xid).data = some a → a.shape = shape →
        reshape cfg xid shape s = Except.ok (some [xid], s))
    ∧ (∀ (s : GraphState) (xid : Nat) (a : NDArray) (shape : List Nat)
        (res : Option (List Nat)) (s' : GraphState),
        (getVar s xid).data = some a → a.shape ≠ shape →
        reshape true xid shape s = Except.ok (res, s') →
        s'.funcs.length = s.funcs.length + 1
        ∧ (getFunc s' s.funcs.length).kind = .reshapeF shape
        ∧ res = some [s.vars.length]) := by
  have hshape : ∀ (s : GraphState) (xid : Nat) (a : NDArray),
      (getVar s xid).data = some a →
      Variable.shape (getVar s xid) = .ok a.shape := by
    intro s xid a hd
    unfold Variable.shape
    rw [hd]
  constructor
  · intro cfg s xid a shape hd hsh
    unfold reshape
    rw [hshape s xid a hd]
    dsimp only
    rw [if_pos hsh]
  · intro s xid a shape res s' hd hsh hr
    unfold reshape at hr
    rw [hshape s xid a hd] at hr
    dsimp only at hr
    rw [if_neg hsh] at hr
    unfold Function.call at hr
    simp only [] at hr
    rw [show (List.map (fun i => (getVar s i).data) [xid]) = [some a] from by
      simp [hd]] at hr
    cases hrt : a.reshapeTo shape with
    | error e =>
      rw [show forward (.reshapeF shape) [some a] = .error e from by
        simp [forward, hrt]] at hr
      exact absurd hr (by simp)
    | ok y =>
      rw [show forward (.reshapeF shape) [some a] = .ok ([y], some a.shape) from by
        simp [forward, hrt]] at hr
      dsimp only at hr
      simp only [Except.ok.injEq, Prod.mk.injEq, if_true,
        show List.range 1 = [0] from rfl, List.map_cons, List.map_nil,
        Nat.zero_add, List.length_cons, List.length_nil] at hr
      obtain ⟨hres, hs⟩ := hr
      subst hs
      refine ⟨?_, ?_, hres.symm⟩
      · rw [funcs_foldl_set_creator]
        simp
      · unfold getFunc
        rw [funcs_foldl_set_creator]
        rw [List.getD_append_right _ _ _ _ (Nat.le_refl _)]
        simp

/-- A one-variable arena holding an ndarray of shape [2]. -/
def c10State : GraphState := (mkVariable emptyState ⟨[2], [1, 2]⟩).2

/-- The arena after reshape(x, (1, 2)) on c10State: one Reshape node and
its fresh output Variable. -/
def c10After : GraphState :=
  ⟨[⟨none, some ⟨[2], [1, 2]⟩, none, none, 0⟩,
    ⟨none, some ⟨[1, 2], [1, 2]⟩, none, some 0, 1⟩],
   [⟨.reshapeF [1, 2], 0, [0], [1], some [2]⟩]⟩

/-- Witness for C10: both halves at concrete arenas — the identity
short-circuit on a matching shape and the node insertion on a differing
shape. -/
theorem claim10_witness :
    reshape true 0 [2] c10State = Except.ok (some [0], c10State)
    ∧ (c10After.funcs.length = c10State.funcs.length + 1
      ∧ (getFunc c10After c10State.funcs.length).kind = .reshapeF [1, 2]
      ∧ (some [1] : Option (List Nat)) = some [c10State.vars.length]) :=
  ⟨claim10_reshape_identity.1 true c10State 0 ⟨[2], [1, 2]⟩ [2] rfl rfl,
   claim10_reshape_identity.2 c10State 0 ⟨[2], [1, 2]⟩ [1, 2] (some [1]) c10After
     rfl (by decide) rfl⟩
